import Mathlib

/-!
Verification of the in-memory session store and its HTTP routes for the
qr-text-share repository.

The embedding mirrors `src/lib/session-store.ts` and the two dynamic route
handlers (`POST`/`GET` on `/api/session/[id]` and `GET` on
`/api/session/[id]/stream`):

* the `Map<string, Session>` registry is modelled as a `List Session`
  (insertion order, unique ids for reachable stores); lookup is first-match,
  in-place mutation of a found session is `replaceFirst`;
* a `ReadableStreamDefaultController` handle is an opaque `Channel := Nat`;
  whether `controller.enqueue` throws is modelled by a predicate
  `broken : Channel → Bool` supplied to the operations that deliver events;
* server-sent frames are modelled structurally: a `data:` line carrying a
  JSON object becomes `Frame.event` with its ordered key/value fields, an
  SSE comment line (`: keepalive`) becomes `Frame.comment`.
-/

set_option autoImplicit false

namespace QrTextShare

/-- A JSON value as far as the publish route inspects request bodies:
`body.text` may be absent (`none`), a string, or some other JSON value.
The route only distinguishes truthiness and `typeof x === 'string'`. -/
inductive JsonValue where
  | str (s : String)
  | num (n : Int)
  | boolean (b : Bool)
  | null
deriving DecidableEq, Repr

/-- An opaque handle for one subscriber's `ReadableStreamDefaultController`. -/
abbrev Channel := Nat

/-- One session's state, from `session-store.ts` (`interface Session`):
id, current text (initially `''`), creation time in milliseconds, and the
set of live SSE listeners (a JS `Set`, modelled as its insertion-ordered,
duplicate-free list). -/
structure Session where
  id : String
  text : String
  createdAt : Nat
  listeners : List Channel
deriving DecidableEq, Repr

/-- The module-level `sessions : Map<string, Session>` registry. -/
abbrev Store := List Session

/-- Characters removed by JavaScript `String.prototype.trim` (the ASCII
white-space subset, which is all the repository's checks rely on). -/
def jsWhitespace (c : Char) : Bool :=
  c = ' ' || c = '\t' || c = '\n' || c = '\r' || c = '\x0b' || c = '\x0c'

/-- JavaScript `text.trim()`: drop white space from both ends. -/
def jsTrim (s : String) : String :=
  ⟨((s.data.dropWhile jsWhitespace).reverse.dropWhile jsWhitespace).reverse⟩

/-- One frame pushed over the SSE stream: either a `data:` line carrying a
JSON object (its ordered fields), or an out-of-band comment line. -/
inductive Frame where
  | event (fields : List (String × String))
  | comment (s : String)
deriving DecidableEq, Repr

/-- Whether a frame is a `data:` event (comments are out-of-band). -/
def Frame.isData : Frame → Bool
  | .event _ => true
  | .comment _ => false

/-- Fields of the stream route's initial message
`JSON.stringify({ type: 'connected', sessionId: id })`. -/
def connectedPayload (sessionId : String) : List (String × String) :=
  [("type", "connected"), ("sessionId", sessionId)]

/-- Fields of the stream route's snapshot message
`JSON.stringify({ type: 'text', text: session.text })`. -/
def snapshotPayload (text : String) : List (String × String) :=
  [("type", "text"), ("text", text)]

/-- Fields of the payload `updateSession` enqueues to every listener:
`JSON.stringify({ text })` — note the object has a single `text` key. -/
def updatePayload (text : String) : List (String × String) :=
  [("text", text)]

/-- `createSession` (modulo the nanoid generator, whose output is the `id`
argument): insert a fresh session with empty text and the current time. -/
def createSession (st : Store) (id : String) (now : Nat) : Store :=
  st ++ [{ id := id, text := "", createdAt := now, listeners := [] }]

/-- `getSession`: `sessions.get(id)`, `undefined` becomes `none`. -/
def getSession (st : Store) (id : String) : Option Session :=
  st.find? (fun s => s.id == id)

/-- In-place mutation of the session stored under `id` (the JS code mutates
the object returned by `sessions.get(id)`; map keys are unique, so this is
the first — only — entry with that id). -/
def replaceFirst : Store → String → (Session → Session) → Store
  | [], _, _ => []
  | s :: rest, id, f =>
      if s.id == id then f s :: rest else s :: replaceFirst rest id f

/-- JS `Set.add`: append the element if it is not already a member. -/
def setInsert (c : Channel) (l : List Channel) : List Channel :=
  if c ∈ l then l else l ++ [c]

/-- `updateSession(id, text)`: look the session up (`false` when absent),
overwrite `session.text`, then for each listener try
`controller.enqueue('data: ' + JSON.stringify({ text }) + '\n\n')`; a
listener whose enqueue throws is deleted from the set.  The result is the
new store, the returned boolean, and the list of (channel, frame) pairs
actually delivered — exactly the listeners whose enqueue did not throw. -/
def updateSession (broken : Channel → Bool) (st : Store) (id text : String) :
    Store × Bool × List (Channel × Frame) :=
  match getSession st id with
  | none => (st, false, [])
  | some s =>
      (replaceFirst st id (fun sess =>
          { sess with
            text := text,
            listeners := sess.listeners.filter (fun c => !(broken c)) }),
       true,
       (s.listeners.filter (fun c => !(broken c))).map
         (fun c => (c, Frame.event (updatePayload text))))

/-- `addListener(id, controller)`: `false` when the session is absent,
otherwise `session.listeners.add(controller)` and `true`. -/
def addListener (st : Store) (id : String) (c : Channel) : Store × Bool :=
  match getSession st id with
  | none => (st, false)
  | some _ =>
      (replaceFirst st id (fun s => { s with listeners := setInsert c s.listeners }),
       true)

/-- `removeListener(id, controller)`: delete the controller from the
session's listener set when the session exists; otherwise do nothing. -/
def removeListener (st : Store) (id : String) (c : Channel) : Store :=
  replaceFirst st id (fun s => { s with listeners := s.listeners.filter (fun x => x != c) })

/-- The eviction test of `cleanupOldSessions`:
`(now - createdAt) / (1000 * 60) > maxAgeMinutes` — with exact arithmetic
(JS number division is exact here up to float precision) this is
`now - createdAt > maxAgeMinutes * 60000`. -/
def sessionExpired (now maxAgeMinutes : Nat) (s : Session) : Bool :=
  maxAgeMinutes * 60000 < now - s.createdAt

/-- `cleanupOldSessions(maxAgeMinutes)`: walk all sessions; each expired one
has every listener closed (`controller.close()`, errors swallowed) and is
deleted from the map, incrementing the counter.  Returns the surviving
store, the count of evicted sessions, and the channels that were closed. -/
def cleanupOldSessions (now maxAgeMinutes : Nat) : Store → Store × Nat × List Channel
  | [] => ([], 0, [])
  | s :: rest =>
      let r := cleanupOldSessions now maxAgeMinutes rest
      if sessionExpired now maxAgeMinutes s then
        (r.1, r.2.1 + 1, s.listeners ++ r.2.2)
      else
        (s :: r.1, r.2.1, r.2.2)

/-- Outcome of `POST /api/session/[id]` (the publish route):
`validationRequired` is the 400 "Text is required", `notFound` the 404
"Session not found", `validationEmpty` the 400 "Text cannot be empty",
`ok` the 200 success response. -/
inductive PublishResult where
  | validationRequired
  | notFound
  | validationEmpty
  | ok
deriving DecidableEq, Repr

/-- Whether a publish outcome is one of the route's two 400 validation
responses (both distinct from the 404 not-found response). -/
def PublishResult.isValidationError : PublishResult → Bool
  | .validationRequired => true
  | .validationEmpty => true
  | _ => false

/-- The publish route `POST /api/session/[id]`, in source order:
1. `if (!body.text || typeof body.text !== 'string')` → 400 required;
2. `getSession(id)` → 404 when absent;
3. `body.text.trim()` empty → 400 empty;
4. otherwise `updateSession(id, trimmedText)` and 200.
Returns the new store, the HTTP outcome, and the frames delivered. -/
def publishPOST (broken : Channel → Bool) (st : Store) (id : String)
    (text : Option JsonValue) : Store × PublishResult × List (Channel × Frame) :=
  match text with
  | some (.str s) =>
      if s == "" then (st, .validationRequired, [])
      else
        match getSession st id with
        | none => (st, .notFound, [])
        | some _ =>
            if jsTrim s == "" then (st, .validationEmpty, [])
            else
              let r := updateSession broken st id (jsTrim s)
              (r.1, .ok, r.2.2)
  | _ => (st, .validationRequired, [])

/-- The connect half of `GET /api/session/[id]/stream`: `none` is the 404
response, produced before any frame is emitted or listener registered;
otherwise the controller enqueues the `connected` event, then — only when
`session.text` is truthy — the snapshot event, and is added to the
session's listener set. -/
def streamGET (st : Store) (id : String) (c : Channel) :
    Option (Store × List Frame) :=
  match getSession st id with
  | none => none
  | some s =>
      some ((addListener st id c).1,
        Frame.event (connectedPayload id) ::
          (if s.text == "" then [] else [Frame.event (snapshotPayload s.text)]))

/-- What happens on one subscriber's stream after it connected: a publish
to the session (delivering a value frame), or a 15-second keepalive tick
(the interval callback enqueues the comment `': keepalive'`). -/
inductive StreamOp where
  | publish (text : String)
  | keepalive
deriving DecidableEq, Repr

/-- The frame a `StreamOp.publish` contributes to a subscriber's stream. -/
def valueFrame : StreamOp → Option Frame
  | .publish t => some (Frame.event (updatePayload t))
  | .keepalive => none

/-- Run a sequence of operations against the store, collecting the frames
channel `c` observes: a keepalive tick enqueues a comment, a publish runs
`updateSession` (with no enqueue failures) and `c` observes the frames
delivered to it. -/
def runOps (id : String) (c : Channel) : Store → List StreamOp → Store × List Frame
  | st, [] => (st, [])
  | st, .keepalive :: rest =>
      let r := runOps id c st rest
      (r.1, Frame.comment "keepalive" :: r.2)
  | st, .publish t :: rest =>
      let u := updateSession (fun _ => false) st id t
      let mine := (u.2.2.filter (fun p => p.1 == c)).map Prod.snd
      let r := runOps id c u.1 rest
      (r.1, mine ++ r.2)

/-- The whole frame sequence channel `c` observes when it subscribes to
session `id` and then `ops` happen: `none` when the subscribe itself 404s,
otherwise the connect-time frames followed by the frames of `ops`. -/
def observedFrames (st : Store) (id : String) (c : Channel)
    (ops : List StreamOp) : Option (List Frame) :=
  match streamGET st id c with
  | none => none
  | some (st1, frames) => some (frames ++ (runOps id c st1 ops).2)

/-- Fold a sequence of (already trimmed) publish texts over the store. -/
def foldPublishes (broken : Channel → Bool) (id : String)
    (st : Store) (ts : List String) : Store :=
  ts.foldl (fun acc t => (updateSession broken acc id t).1) st

/-- The spec's "text absent, non-string, or blank after trimming". -/
def blankTextInput : Option JsonValue → Bool
  | none => true
  | some (.str s) => jsTrim s == ""
  | some _ => true

/-- The spec's "text absent or not a string" (not a string at all, as
opposed to a string that trims to nothing). -/
def nonStringText : Option JsonValue → Bool
  | some (.str _) => false
  | _ => true

/-! ### Helper lemmas about the registry primitives -/

lemma getSession_replaceFirst {st : Store} {id : String} {s : Session}
    (f : Session → Session) (h : getSession st id = some s)
    (hid : (f s).id = s.id) :
    getSession (replaceFirst st id f) id = some (f s) := by
  induction st with
  | nil => simp [getSession] at h
  | cons a rest ih =>
    by_cases ha : a.id == id
    · have : a = s := by
        simpa [getSession, List.find?, ha] using h
      subst this
      have hfa : ((f a).id == id) = true := by
        rw [hid]; exact ha
      simp [getSession, replaceFirst, List.find?, ha, hfa]
    · have h' : getSession rest id = some s := by
        simpa [getSession, List.find?, ha] using h
      simpa [getSession, replaceFirst, List.find?, ha] using ih h'

lemma replaceFirst_of_none {st : Store} {id : String}
    (f : Session → Session) (h : getSession st id = none) :
    replaceFirst st id f = st := by
  induction st with
  | nil => rfl
  | cons a rest ih =>
    by_cases ha : a.id == id
    · simp [getSession, List.find?, ha] at h
    · have h' : getSession rest id = none := by
        simpa [getSession, List.find?, ha] using h
      simp [replaceFirst, ha, ih h']

lemma replaceFirst_congr_id {st : Store} {id : String} {s : Session}
    (f : Session → Session) (h : getSession st id = some s) (hf : f s = s) :
    replaceFirst st id f = st := by
  induction st with
  | nil => rfl
  | cons a rest ih =>
    by_cases ha : a.id == id
    · have : a = s := by
        simpa [getSession, List.find?, ha] using h
      subst this
      simp [replaceFirst, ha, hf]
    · have h' : getSession rest id = some s := by
        simpa [getSession, List.find?, ha] using h
      simp [replaceFirst, ha, ih h']

lemma filter_self_idem (p : Channel → Bool) (l : List Channel) :
    (l.filter p).filter p = l.filter p := by
  induction l with
  | nil => rfl
  | cons a l ih =>
    by_cases h : p a <;> simp [List.filter_cons, h, ih]

lemma filter_bne_of_not_mem {l : List Channel} {c : Channel} (h : c ∉ l) :
    l.filter (fun x => x != c) = l := by
  induction l with
  | nil => rfl
  | cons a l ih =>
    simp only [List.mem_cons, not_or] at h
    have ha : (a != c) = true := by
      simp only [bne_iff_ne]
      exact fun e => h.1 e.symm
    simp [List.filter_cons, ha, ih h.2]

/-! ### Claim theorems -/

/-- C7: for a session id not in the registry, the stream route answers 404
before emitting any frame, and `addListener` registers no channel (it
leaves the store untouched and reports failure). -/
theorem subscribe_notFound_before_events (st : Store) (id : String) (c : Channel)
    (h : getSession st id = none) :
    streamGET st id c = none ∧ addListener st id c = (st, false) := by
  constructor
  · simp [streamGET, h]
  · simp [addListener, h]

theorem subscribe_notFound_before_events_witness :
    streamGET [] "doesnotexist" 0 = none ∧
      addListener [] "doesnotexist" 0 = ([], false) :=
  subscribe_notFound_before_events [] "doesnotexist" 0 rfl

/-- C9: `removeListener` is idempotent; removing from a nonexistent session
is a no-op, and removing a channel that is not in the listener set leaves
the store unchanged — no error is ever signalled. -/
theorem unsubscribe_idempotent (st : Store) (id : String) (c : Channel) :
    removeListener (removeListener st id c) id c = removeListener st id c ∧
    (getSession st id = none → removeListener st id c = st) ∧
    ∀ s, getSession st id = some s → c ∉ s.listeners →
      removeListener st id c = st := by
  refine ⟨?_, fun h => replaceFirst_of_none _ h, fun s hs hc => ?_⟩
  · induction st with
    | nil => rfl
    | cons a rest ih =>
      by_cases ha : a.id == id
      · simp [removeListener, replaceFirst, ha, filter_self_idem]
      · simpa [removeListener, replaceFirst, ha] using ih
  · refine replaceFirst_congr_id _ hs ?_
    rw [filter_bne_of_not_mem hc]

theorem unsubscribe_idempotent_witness :
    removeListener (removeListener [⟨"abc1234567", "", 0, [5]⟩] "abc1234567" 9)
        "abc1234567" 9 =
      removeListener [⟨"abc1234567", "", 0, [5]⟩] "abc1234567" 9 ∧
    removeListener [⟨"abc1234567", "", 0, [5]⟩] "abc1234567" 9 =
      [⟨"abc1234567", "", 0, [5]⟩] :=
  ⟨(unsubscribe_idempotent [⟨"abc1234567", "", 0, [5]⟩] "abc1234567" 9).1,
   (unsubscribe_idempotent [⟨"abc1234567", "", 0, [5]⟩] "abc1234567" 9).2.2
     ⟨"abc1234567", "", 0, [5]⟩ (by decide) (by decide)⟩

/-- C2 counterexample: the text `" "` is blank after trimming, yet a
publish of it to the absent id `"missing"` is answered with the 404
not-found response, not with a validation error — the blank-after-trim
check only runs once the session lookup has succeeded. -/
theorem publish_blank_missing_session_not_validation :
    blankTextInput (some (.str " ")) = true ∧
    (publishPOST (fun _ => false) [] "missing" (some (.str " "))).2.1 =
      .notFound ∧
    PublishResult.notFound.isValidationError = false := by decide

/-- C2 (amended): for every id present in the registry and every submitted
text that is absent, non-string, or blank after trimming, the publish route
rejects the request with a validation error distinct from NotFound and
leaves the store — in particular the session's current value — unchanged. -/
theorem publish_invalid_text_rejected (broken : Channel → Bool) (st : Store)
    (id : String) (s : Session) (t : Option JsonValue)
    (hs : getSession st id = some s) (ht : blankTextInput t = true) :
    (publishPOST broken st id t).2.1.isValidationError = true ∧
    (publishPOST broken st id t).2.1 ≠ .notFound ∧
    (publishPOST broken st id t).1 = st := by
  match t with
  | none =>
      simp [publishPOST, PublishResult.isValidationError]
  | some (.num n) =>
      simp [publishPOST, PublishResult.isValidationError]
  | some (.boolean b) =>
      simp [publishPOST, PublishResult.isValidationError]
  | some .null =>
      simp [publishPOST, PublishResult.isValidationError]
  | some (.str w) =>
      have htrim : (jsTrim w == "") = true := by
        simpa [blankTextInput] using ht
      by_cases hw : w == ""
      · simp [publishPOST, hw, PublishResult.isValidationError]
      · simp [publishPOST, hw, hs, htrim, PublishResult.isValidationError]

theorem publish_invalid_text_rejected_witness :
    (publishPOST (fun _ => false) [⟨"abc1234567", "old", 0, []⟩] "abc1234567"
        (some (.str "  "))).2.1.isValidationError = true ∧
    (publishPOST (fun _ => false) [⟨"abc1234567", "old", 0, []⟩] "abc1234567"
        (some (.str "  "))).2.1 ≠ .notFound ∧
    (publishPOST (fun _ => false) [⟨"abc1234567", "old", 0, []⟩] "abc1234567"
        (some (.str "  "))).1 = [⟨"abc1234567", "old", 0, []⟩] :=
  publish_invalid_text_rejected (fun _ => false) [⟨"abc1234567", "old", 0, []⟩]
    "abc1234567" ⟨"abc1234567", "old", 0, []⟩ (some (.str "  "))
    (by decide) (by decide)

/-- C10: check ordering at the publish route — an absent or non-string
text field draws the "Text is required" validation response no matter what
the registry holds, while a non-empty string that is blank after trimming,
sent to an id that is not in the registry, draws the 404 not-found
response, because the trim check runs only after the session lookup. -/
theorem publish_check_precedence :
    (∀ (broken : Channel → Bool) (st : Store) (id : String)
        (t : Option JsonValue), nonStringText t = true →
        (publishPOST broken st id t).2.1 = .validationRequired) ∧
    (∀ (broken : Channel → Bool) (st : Store) (id : String) (w : String),
        getSession st id = none → w ≠ "" → jsTrim w = "" →
        (publishPOST broken st id (some (.str w))).2.1 = .notFound) := by
  constructor
  · intro broken st id t ht
    match t with
    | none => simp [publishPOST]
    | some (.num n) => simp [publishPOST]
    | some (.boolean b) => simp [publishPOST]
    | some .null => simp [publishPOST]
    | some (.str w) => simp [nonStringText] at ht
  · intro broken st id w hs hw htrim
    have hw' : (w == "") = false := by simpa using hw
    simp [publishPOST, hw', hs]

theorem publish_check_precedence_witness :
    (publishPOST (fun _ => false) [⟨"abc1234567", "", 0, []⟩] "abc1234567"
        (some (.num 5))).2.1 = .validationRequired ∧
    (publishPOST (fun _ => false) [] "doesnotexist"
        (some (.str " "))).2.1 = .notFound :=
  ⟨publish_check_precedence.1 (fun _ => false) [⟨"abc1234567", "", 0, []⟩]
     "abc1234567" (some (.num 5)) (by decide),
   publish_check_precedence.2 (fun _ => false) [] "doesnotexist" " "
     (by decide) (by decide) (by decide)⟩

/-- C5: the connect-time events carry a `type` discriminator (`connected`,
resp. `text`), but the event `updateSession` delivers to subscribers on a
publish is the bare object `{ text }` with no `type` key at all — the
stream's own README documents text updates as `{"type":"text",...}` and
the desktop client needs a `data.type === 'text' || data.text` fallback,
so the missing discriminator on the publish path contradicts the
repository's documented wire format. -/
theorem publish_event_lacks_type_discriminator :
    (updateSession (fun _ => false) [⟨"abc1234567", "", 0, [0]⟩]
        "abc1234567" "hello").2.2 =
      [(0, Frame.event [("text", "hello")])] ∧
    (updatePayload "hello").lookup "type" = none ∧
    (connectedPayload "abc1234567").lookup "type" = some "connected" ∧
    (snapshotPayload "hello").lookup "type" = some "text" := by decide

/-- C6: publishing a text that is non-blank after trimming to an id absent
from the registry yields the 404 not-found outcome and leaves the store
untouched (no session is created); publishing it to an id present in the
registry yields the 200 success outcome and sets that session's current
value to the trimmed text. -/
theorem publish_notfound_vs_ok (broken : Channel → Bool) (st : Store)
    (id : String) (w : String) (hw : jsTrim w ≠ "") :
    (getSession st id = none →
      publishPOST broken st id (some (.str w)) = (st, .notFound, [])) ∧
    (∀ s, getSession st id = some s →
      (publishPOST broken st id (some (.str w))).2.1 = .ok ∧
      ∃ s', getSession (publishPOST broken st id (some (.str w))).1 id = some s' ∧
        s'.text = jsTrim w) := by
  have hw0 : (w == "") = false := by
    simp only [beq_eq_false_iff_ne, ne_eq]
    intro h
    subst h
    exact hw rfl
  have htrim : (jsTrim w == "") = false := by
    simpa using hw
  constructor
  · intro h
    simp [publishPOST, hw0, h]
  · intro s hs
    have hup :
        getSession
          (replaceFirst st id (fun sess =>
            { sess with
              text := jsTrim w,
              listeners := sess.listeners.filter (fun c => !(broken c)) })) id =
          some { s with
              text := jsTrim w,
              listeners := s.listeners.filter (fun c => !(broken c)) } :=
      getSession_replaceFirst _ hs rfl
    refine ⟨?_, ?_⟩
    · simp [publishPOST, hw0, hs, htrim, updateSession]
    · refine ⟨{ s with
          text := jsTrim w,
          listeners := s.listeners.filter (fun c => !(broken c)) }, ?_, rfl⟩
      simpa [publishPOST, hw0, hs, htrim, updateSession] using hup

theorem publish_notfound_vs_ok_witness :
    publishPOST (fun _ => false) [] "doesnotexist" (some (.str "hello")) =
      ([], .notFound, []) ∧
    (publishPOST (fun _ => false) [⟨"abc1234567", "", 0, []⟩] "abc1234567"
        (some (.str " hello "))).2.1 = .ok ∧
    ∃ s', getSession (publishPOST (fun _ => false) [⟨"abc1234567", "", 0, []⟩]
        "abc1234567" (some (.str " hello "))).1 "abc1234567" = some s' ∧
      s'.text = jsTrim " hello " :=
  ⟨(publish_notfound_vs_ok (fun _ => false) [] "doesnotexist" "hello"
      (by decide)).1 rfl,
   (publish_notfound_vs_ok (fun _ => false) [⟨"abc1234567", "", 0, []⟩]
      "abc1234567" " hello " (by decide)).2 ⟨"abc1234567", "", 0, []⟩ (by decide)⟩

/-- C3: a publish to an existing session reports success regardless of
enqueue failures; every subscriber whose enqueue throws is removed from
the listener set, delivery still reaches every other subscriber, and every
failing channel is gone from the resulting set. -/
theorem delivery_failure_recovered (broken : Channel → Bool) (st : Store)
    (id t : String) (s : Session) (hs : getSession st id = some s) :
    (updateSession broken st id t).2.1 = true ∧
    (updateSession broken st id t).2.2 =
      (s.listeners.filter (fun c => !(broken c))).map
        (fun c => (c, Frame.event (updatePayload t))) ∧
    (∀ ch ∈ s.listeners, broken ch = false →
      (ch, Frame.event (updatePayload t)) ∈ (updateSession broken st id t).2.2) ∧
    ∃ s', getSession (updateSession broken st id t).1 id = some s' ∧
      s'.listeners = s.listeners.filter (fun c => !(broken c)) ∧
      ∀ ch, broken ch = true → ch ∉ s'.listeners := by
  have hup :
      getSession
        (replaceFirst st id (fun sess =>
          { sess with
            text := t,
            listeners := sess.listeners.filter (fun c => !(broken c)) })) id =
        some { s with
            text := t,
            listeners := s.listeners.filter (fun c => !(broken c)) } :=
    getSession_replaceFirst _ hs rfl
  refine ⟨?_, ?_, ?_, ?_⟩
  · simp [updateSession, hs]
  · simp [updateSession, hs]
  · intro ch hch hok
    simp only [updateSession, hs]
    exact List.mem_map_of_mem _ (List.mem_filter.mpr ⟨hch, by simp [hok]⟩)
  · refine ⟨{ s with
        text := t,
        listeners := s.listeners.filter (fun c => !(broken c)) }, ?_, rfl, ?_⟩
    · simpa [updateSession, hs] using hup
    · intro ch hch hmem
      have := (List.mem_filter.mp hmem).2
      simp [hch] at this

theorem delivery_failure_recovered_witness :
    (updateSession (fun c => c == 1) [⟨"abc1234567", "", 0, [0, 1, 2]⟩]
        "abc1234567" "hi").2.1 = true ∧
    (updateSession (fun c => c == 1) [⟨"abc1234567", "", 0, [0, 1, 2]⟩]
        "abc1234567" "hi").2.2 =
      ([0, 1, 2].filter (fun c => !(c == 1))).map
        (fun c => (c, Frame.event (updatePayload "hi"))) :=
  ⟨(delivery_failure_recovered (fun c => c == 1)
      [⟨"abc1234567", "", 0, [0, 1, 2]⟩] "abc1234567" "hi"
      ⟨"abc1234567", "", 0, [0, 1, 2]⟩ (by decide)).1,
   (delivery_failure_recovered (fun c => c == 1)
      [⟨"abc1234567", "", 0, [0, 1, 2]⟩] "abc1234567" "hi"
      ⟨"abc1234567", "", 0, [0, 1, 2]⟩ (by decide)).2.1⟩

lemma cleanup_spec (now m : Nat) (st : Store) :
    cleanupOldSessions now m st =
      (st.filter (fun s => !(sessionExpired now m s)),
       (st.filter (sessionExpired now m)).length,
       (st.filter (sessionExpired now m)).flatMap Session.listeners) := by
  induction st with
  | nil => rfl
  | cons s rest ih =>
    by_cases h : sessionExpired now m s <;>
      simp [cleanupOldSessions, List.filter_cons, h, ih]

/-- C4 counterexample: a sweep with `maxAge = 0` does not evict a session
whose age is exactly zero (created in the same millisecond as the sweep),
because the code evicts only sessions whose age strictly exceeds the
threshold: here the registry still holds the session and the sweep
reports zero evictions. -/
theorem sweep_zero_age_session_survives :
    (cleanupOldSessions 5 0 [⟨"a", "x", 5, [0]⟩]).1 = [⟨"a", "x", 5, [0]⟩] ∧
    (cleanupOldSessions 5 0 [⟨"a", "x", 5, [0]⟩]).2.1 = 0 := by decide

/-- C4 (amended): a sweep removes exactly the sessions whose age strictly
exceeds `maxAge`, keeps all others, returns the number evicted, and closes
every subscriber channel of each evicted session; in particular a sweep
with `maxAge = 0` evicts every session whose age is positive (one created
in the very instant of the sweep survives). -/
theorem sweep_expired_exactly (now m : Nat) (st : Store) :
    (cleanupOldSessions now m st).1 =
      st.filter (fun s => !(sessionExpired now m s)) ∧
    (cleanupOldSessions now m st).2.1 =
      (st.filter (sessionExpired now m)).length ∧
    (cleanupOldSessions now m st).2.2 =
      (st.filter (sessionExpired now m)).flatMap Session.listeners ∧
    ((∀ s ∈ st, s.createdAt < now) →
      (cleanupOldSessions now 0 st).1 = [] ∧
      (cleanupOldSessions now 0 st).2.1 = st.length ∧
      (cleanupOldSessions now 0 st).2.2 = st.flatMap Session.listeners) := by
  refine ⟨by rw [cleanup_spec], by rw [cleanup_spec], by rw [cleanup_spec],
    fun hall => ?_⟩
  have hexp : ∀ s ∈ st, sessionExpired now 0 s = true := by
    intro s hsmem
    have := hall s hsmem
    simp only [sessionExpired, Nat.zero_mul, decide_eq_true_eq]
    omega
  have h1 : st.filter (fun s => !(sessionExpired now 0 s)) = [] := by
    rw [List.filter_eq_nil_iff]
    intro s hsmem
    simp [hexp s hsmem]
  have h2 : st.filter (sessionExpired now 0) = st :=
    List.filter_eq_self.mpr hexp
  rw [cleanup_spec]
  exact ⟨h1, by rw [h2], by rw [h2]⟩

theorem sweep_expired_exactly_witness :
    (cleanupOldSessions 10 0 [⟨"a", "x", 3, [7]⟩, ⟨"b", "y", 9, [4]⟩]).1 = [] ∧
    (cleanupOldSessions 10 0 [⟨"a", "x", 3, [7]⟩, ⟨"b", "y", 9, [4]⟩]).2.1 = 2 ∧
    (cleanupOldSessions 10 0 [⟨"a", "x", 3, [7]⟩, ⟨"b", "y", 9, [4]⟩]).2.2 =
      [7, 4] :=
  (sweep_expired_exactly 10 0 [⟨"a", "x", 3, [7]⟩, ⟨"b", "y", 9, [4]⟩]).2.2.2
    (by decide)

lemma foldPublishes_text (broken : Channel → Bool) (id : String)
    (ts : List String) :
    ∀ (st : Store) (s : Session) (tlast : String),
      getSession st id = some s → ts.getLast? = some tlast →
      ∃ s', getSession (foldPublishes broken id st ts) id = some s' ∧
        s'.text = tlast := by
  induction ts with
  | nil =>
    intro st s tlast _ hl
    simp at hl
  | cons t rest ih =>
    intro st s tlast hs hl
    have hstep : getSession (updateSession broken st id t).1 id =
        some { s with
            text := t,
            listeners := s.listeners.filter (fun c => !(broken c)) } := by
      simp only [updateSession, hs]
      exact getSession_replaceFirst _ hs rfl
    cases rest with
    | nil =>
      have ht : tlast = t := by
        simpa using hl.symm
      subst ht
      exact ⟨{ s with
          text := tlast,
          listeners := s.listeners.filter (fun c => !(broken c)) },
        by simpa [foldPublishes] using hstep, rfl⟩
    | cons r rs =>
      have hl' : (r :: rs).getLast? = some tlast := by
        simpa [List.getLast?_cons_cons] using hl
      have := ih (updateSession broken st id t).1 _ tlast hstep hl'
      simpa [foldPublishes] using this

/-- C8: after any nonempty sequence of successful publishes to one session
(all texts non-empty after trimming, as the publish route guarantees), the
session's current value is the text of the last publish, and a subscriber
connecting afterwards observes exactly the connected event followed by a
snapshot event carrying that last value — never an earlier one. -/
theorem last_write_wins (broken : Channel → Bool) (st : Store) (id : String)
    (s : Session) (ts : List String) (tlast : String) (c : Channel)
    (hs : getSession st id = some s) (hl : ts.getLast? = some tlast)
    (hall : ∀ t ∈ ts, t ≠ "") :
    ∃ s', getSession (foldPublishes broken id st ts) id = some s' ∧
      s'.text = tlast ∧
      ∃ st', streamGET (foldPublishes broken id st ts) id c =
        some (st', [Frame.event (connectedPayload id),
                    Frame.event (snapshotPayload tlast)]) := by
  obtain ⟨s', hs', htext⟩ := foldPublishes_text broken id ts st s tlast hs hl
  have htl : tlast ≠ "" := hall tlast (List.mem_of_getLast?_eq_some hl)
  have hne : (s'.text == "") = false := by
    simp [htext, htl]
  refine ⟨s', hs', htext, ⟨(addListener (foldPublishes broken id st ts) id c).1, ?_⟩⟩
  simp [streamGET, hs', hne, htext, htl]

theorem last_write_wins_witness :
    ∃ s', getSession (foldPublishes (fun _ => false) "abc1234567"
        [⟨"abc1234567", "", 0, []⟩] ["one", "two", "three"]) "abc1234567" =
          some s' ∧
      s'.text = "three" ∧
      ∃ st', streamGET (foldPublishes (fun _ => false) "abc1234567"
          [⟨"abc1234567", "", 0, []⟩] ["one", "two", "three"]) "abc1234567" 0 =
        some (st', [Frame.event (connectedPayload "abc1234567"),
                    Frame.event (snapshotPayload "three")]) :=
  last_write_wins (fun _ => false) [⟨"abc1234567", "", 0, []⟩] "abc1234567"
    ⟨"abc1234567", "", 0, []⟩ ["one", "two", "three"] "three" 0
    (by decide) (by decide) (by decide)

lemma delivered_filter_eq (l : List Channel) (c : Channel) (fr : Frame) :
    ((l.map (fun ch => (ch, fr))).filter (fun p => p.1 == c)).map Prod.snd =
      List.replicate (l.count c) fr := by
  induction l with
  | nil => rfl
  | cons a l ih =>
    by_cases hac : (a == c) = true
    · have ha : a = c := eq_of_beq hac
      subst ha
      simp only [List.map_cons, List.filter_cons, hac, List.count_cons_self,
        List.replicate_succ, ite_true]
      simpa using ih
    · have hne : c ≠ a := fun e => hac (by simp [e])
      simp only [List.map_cons, List.filter_cons, hac, ite_false,
        List.count_cons_of_ne hne]
      exact ih

lemma runOps_filter_isData (id : String) (c : Channel) (ops : List StreamOp) :
    ∀ (st : Store) (s : Session), getSession st id = some s →
      s.listeners.count c = 1 →
      (runOps id c st ops).2.filter Frame.isData = ops.filterMap valueFrame := by
  induction ops with
  | nil =>
    intro st s _ _
    rfl
  | cons op rest ih =>
    intro st s hs hcount
    cases op with
    | keepalive =>
      simpa [runOps, List.filter_cons, Frame.isData, valueFrame]
        using ih st s hs hcount
    | publish t =>
      have hfilter :
          s.listeners.filter (fun ch => !((fun _ : Channel => false) ch)) =
            s.listeners := by
        simp
      have hup : getSession (updateSession (fun _ => false) st id t).1 id =
          some { s with
              text := t,
              listeners :=
                s.listeners.filter (fun ch => !((fun _ : Channel => false) ch)) } := by
        simp only [updateSession, hs]
        exact getSession_replaceFirst _ hs rfl
      have hcount' : ({ s with
              text := t,
              listeners :=
                s.listeners.filter (fun ch => !((fun _ : Channel => false) ch)) } :
            Session).listeners.count c = 1 := by
        simpa [hfilter] using hcount
      have hmine : ((updateSession (fun _ => false) st id t).2.2.filter
            (fun p => p.1 == c)).map Prod.snd =
          [Frame.event (updatePayload t)] := by
        simp only [updateSession, hs]
        rw [hfilter, delivered_filter_eq, hcount]
        rfl
      have hih := ih (updateSession (fun _ => false) st id t).1 _ hup hcount'
      simp only [runOps, List.filter_append, hmine, List.filterMap_cons,
        valueFrame]
      rw [hih]
      rfl

/-- C1: a subscriber connecting with a fresh channel to an existing
session observes, among the `data:` events of its stream: first the single
connected event carrying the session id, then — exactly when the session's
value was non-empty at connect time — the single snapshot event carrying
that value, then one value event per subsequent publish, in publish order;
the keepalive comments interleaved in the stream are not `data:` events at
all. -/
theorem stream_event_order (st : Store) (id : String) (c : Channel)
    (s : Session) (ops : List StreamOp) (hs : getSession st id = some s)
    (hc : c ∉ s.listeners) :
    ∃ fs, observedFrames st id c ops = some fs ∧
      fs.filter Frame.isData =
        Frame.event (connectedPayload id) ::
          ((if s.text == "" then [] else [Frame.event (snapshotPayload s.text)]) ++
            ops.filterMap valueFrame) := by
  have hadd : getSession (addListener st id c).1 id =
      some { s with listeners := setInsert c s.listeners } := by
    simp only [addListener, hs]
    exact getSession_replaceFirst _ hs rfl
  have hcount : ({ s with listeners := setInsert c s.listeners } :
      Session).listeners.count c = 1 := by
    simp only [setInsert, if_neg hc]
    rw [List.count_append]
    simp [List.count_eq_zero.mpr hc]
  have hrun := runOps_filter_isData id c ops (addListener st id c).1 _ hadd hcount
  refine ⟨(Frame.event (connectedPayload id) ::
      (if s.text == "" then [] else [Frame.event (snapshotPayload s.text)])) ++
      (runOps id c (addListener st id c).1 ops).2, ?_, ?_⟩
  · simp [observedFrames, streamGET, hs]
  · rw [List.filter_append, hrun]
    by_cases h : (s.text == "") = true <;>
      simp [h, Frame.isData, List.filter_cons]

theorem stream_event_order_witness :
    ∃ fs, observedFrames [⟨"abc1234567", "", 0, []⟩] "abc1234567" 0
        [.publish "hello", .keepalive] = some fs ∧
      fs.filter Frame.isData =
        Frame.event (connectedPayload "abc1234567") ::
          ((if ("" : String) == "" then []
            else [Frame.event (snapshotPayload "")]) ++
            ([StreamOp.publish "hello", StreamOp.keepalive].filterMap valueFrame)) :=
  stream_event_order [⟨"abc1234567", "", 0, []⟩] "abc1234567" 0
    ⟨"abc1234567", "", 0, []⟩ [.publish "hello", .keepalive]
    (by decide) (by decide)

end QrTextShare
